import Mathlib

/-!
# CarbonShift Simulator — verification of the region-comparison core

Shallow embedding of the CarbonShift Simulator (AntonSatt/carbon_shift_website).
The repository ships the frontend (Next.js) and documentation; the backend
calculation engine described in the specification is not among the given
source files, so the Calculator, Region Comparator, Recommendation
Engine, Equivalency Translator and request validation below are modelled
from the specification, while the
reference catalogs (`DEFAULT_INSTANCES`, `DEFAULT_REGIONS`) and the
dashboard's recommended-region fallback are translated directly from
`frontend/src/components/simulation-form.tsx` and the `ResultsDashboard`
component.  Monetary, energy and carbon quantities are exact rationals;
boundary rounding is explicit.
-/

namespace CarbonShift

/-- From `frontend/src/lib/types` (`InstanceInfo`) and the spec's
`InstancePowerProfile`: one instance type's static power profile. -/
structure InstancePowerProfile where
  instance_type : String
  vcpus : ℕ
  memory_gb : ℚ
  idle_watts : ℚ
  max_watts : ℚ
deriving DecidableEq, Repr

/-- From `frontend/src/lib/types` (`RegionInfo`) and the spec's
`RegionProfile`: one region's static carbon-intensity record. -/
structure RegionProfile where
  region_code : String
  region_name : String
  country : String
  carbon_intensity_gco2_kwh : ℚ
deriving DecidableEq, Repr

/-- Modelled from the spec: `PriceEntry` — the static
(provider, instance_type, region) → hourly price table; the repository's
price table file is not among the given sources. -/
structure PriceEntry where
  cloud_provider : String
  instance_type : String
  region_code : String
  hourly_price_usd : ℚ
deriving DecidableEq, Repr

/-- From `frontend/src/lib/types` (`SimulationRequest`): the workload a user
submits for simulation. -/
structure WorkloadRequest where
  cloud_provider : String
  instance_type : String
  instance_count : ℤ
  cpu_utilization : ℚ
  hours_per_month : ℚ
  current_region : String
deriving DecidableEq, Repr

/-- From `frontend/src/lib/types` (`RegionResult`): per-region derived
figures returned to the presentation layer. -/
structure RegionResult where
  region_code : String
  region_name : String
  country : String
  carbon_intensity_gco2_kwh : ℚ
  power_consumption_kwh : ℚ
  carbon_emissions_kg : ℚ
  monthly_cost_usd : ℚ
  is_current_region : Bool
  is_lowest_carbon : Bool
  is_lowest_cost : Bool
  carbon_savings_kg : ℚ
  cost_savings_usd : ℚ
  carbon_savings_percent : ℚ
  cost_savings_percent : ℚ
deriving DecidableEq, Repr

/-- From `frontend/src/lib/types` (`Equivalencies`): human-relatable
translation of the yearly carbon savings. -/
structure Equivalencies where
  yearly_savings_kg : ℚ
  car_km_saved : ℚ
  tree_months : ℚ
  smartphone_charges : ℚ
deriving DecidableEq, Repr

/-- From `frontend/src/lib/types` (`SimulationResponse`) together with the
`ResultsDashboard` component (src/unnamed/part_002, line 91:
`ai_recommended_region` is destructured from the response): the assembled
result bundle.  `ai_insights` is filled by an external text-generation
collaborator and is `none` inside the core. -/
structure SimulationResponse where
  success : Bool
  request : WorkloadRequest
  current_region_result : RegionResult
  comparison_regions : List RegionResult
  best_carbon_region : RegionResult
  best_cost_region : RegionResult
  ai_insights : Option String
  ai_recommended_region : Option RegionResult
  equivalencies : Equivalencies
deriving DecidableEq, Repr

/-- From `frontend/src/components/simulation-form.tsx` (`DEFAULT_INSTANCES`):
the static instance catalog. -/
def DEFAULT_INSTANCES : List InstancePowerProfile :=
  [ ⟨"t3.micro", 2, 1, 35/10, 18⟩,
    ⟨"t3.small", 2, 2, 45/10, 22⟩,
    ⟨"t3.medium", 2, 4, 6, 28⟩,
    ⟨"t3.large", 2, 8, 8, 35⟩,
    ⟨"m5.large", 2, 8, 12, 45⟩,
    ⟨"m5.xlarge", 4, 16, 18, 75⟩,
    ⟨"m5.2xlarge", 8, 32, 30, 130⟩,
    ⟨"c5.large", 2, 4, 10, 50⟩,
    ⟨"c5.xlarge", 4, 8, 16, 85⟩,
    ⟨"r5.large", 2, 16, 14, 52⟩ ]

/-- From `frontend/src/components/simulation-form.tsx` (`DEFAULT_REGIONS`):
the static region catalog with grid carbon intensities (gCO2/kWh). -/
def DEFAULT_REGIONS : List RegionProfile :=
  [ ⟨"eu-central-1", "Frankfurt", "Germany", 385⟩,
    ⟨"eu-west-1", "Ireland", "Ireland", 296⟩,
    ⟨"eu-west-2", "London", "United Kingdom", 233⟩,
    ⟨"eu-west-3", "Paris", "France", 56⟩,
    ⟨"eu-north-1", "Stockholm", "Sweden", 45⟩,
    ⟨"us-east-1", "N. Virginia", "United States", 378⟩,
    ⟨"us-west-2", "Oregon", "United States", 115⟩,
    ⟨"ca-central-1", "Montreal", "Canada", 25⟩,
    ⟨"ap-southeast-2", "Sydney", "Australia", 660⟩ ]

/-- Modelled from the spec: a sample AWS on-demand price table for the
t3.micro instance (the repository's static pricing file is not among the
given sources; values follow public AWS pricing). -/
def SAMPLE_PRICES : List PriceEntry :=
  [ ⟨"aws", "t3.micro", "eu-central-1", 12/1000⟩,
    ⟨"aws", "t3.micro", "eu-west-1", 114/10000⟩,
    ⟨"aws", "t3.micro", "eu-west-2", 118/10000⟩,
    ⟨"aws", "t3.micro", "eu-west-3", 118/10000⟩,
    ⟨"aws", "t3.micro", "eu-north-1", 108/10000⟩,
    ⟨"aws", "t3.micro", "us-east-1", 104/10000⟩,
    ⟨"aws", "t3.micro", "us-west-2", 104/10000⟩,
    ⟨"aws", "t3.micro", "ca-central-1", 116/10000⟩,
    ⟨"aws", "t3.micro", "ap-southeast-2", 132/10000⟩ ]

/-- Minimum of two rationals, written out so every use reduces by `if`. -/
def qmin (a b : ℚ) : ℚ := if a ≤ b then a else b

/-- Clamp a rational to be nonnegative. -/
def clamp0 (x : ℚ) : ℚ := if x < 0 then 0 else x

/-- Modelled from the spec: round to 2 decimal places at the output
boundary (round half up). -/
def round2 (x : ℚ) : ℚ := (⌊x * 100 + 1/2⌋ : ℚ) / 100

/-- Modelled from the spec: round to 1 decimal place (savings percents). -/
def round1 (x : ℚ) : ℚ := (⌊x * 10 + 1/2⌋ : ℚ) / 10

/-- Modelled from the spec: linear power model
`watts = idle_watts + (max_watts - idle_watts) * (cpu_utilization / 100)`. -/
def computeWatts (p : InstancePowerProfile) (cpu_utilization : ℚ) : ℚ :=
  p.idle_watts + (p.max_watts - p.idle_watts) * (cpu_utilization / 100)

/-- Modelled from the spec: total monthly energy of the workload in kWh
(`kwh = watts / 1000 * hours_per_month`, times `instance_count`),
before boundary rounding. -/
def totalKwh (p : InstancePowerProfile) (req : WorkloadRequest) : ℚ :=
  computeWatts p req.cpu_utilization / 1000 * req.hours_per_month * (req.instance_count : ℚ)

/-- Modelled from the spec: the Calculator — one region's base
`RegionResult` (power, carbon, cost rounded at the boundary; comparison
flags and savings are filled in by the Comparator). -/
def mkBase (p : InstancePowerProfile) (req : WorkloadRequest) (price : ℚ)
    (region : RegionProfile) (isCurrent : Bool) : RegionResult :=
  { region_code := region.region_code
    region_name := region.region_name
    country := region.country
    carbon_intensity_gco2_kwh := region.carbon_intensity_gco2_kwh
    power_consumption_kwh := round2 (totalKwh p req)
    carbon_emissions_kg := round2 (totalKwh p req * region.carbon_intensity_gco2_kwh / 1000)
    monthly_cost_usd := round2 (price * req.hours_per_month * (req.instance_count : ℚ))
    is_current_region := isCurrent
    is_lowest_carbon := false
    is_lowest_cost := false
    carbon_savings_kg := 0
    cost_savings_usd := 0
    carbon_savings_percent := 0
    cost_savings_percent := 0 }

/-- Modelled from the spec: price lookup keyed by
(provider, instance_type, region_code); a missing entry is `none`, never a
silent zero. -/
def findPrice (prices : List PriceEntry) (provider instType regionCode : String) :
    Option PriceEntry :=
  prices.find? fun pe =>
    pe.cloud_provider == provider && pe.instance_type == instType &&
      pe.region_code == regionCode

/-- Fold a running minimum over a list of rationals, seeded with the first
observed value. -/
def foldMin (x : ℚ) (xs : List ℚ) : ℚ := xs.foldl qmin x

/-- The minimum `carbon_emissions_kg` over the current result and the
comparison results. -/
def mcOf (c : RegionResult) (os : List RegionResult) : ℚ :=
  foldMin c.carbon_emissions_kg (os.map (·.carbon_emissions_kg))

/-- The minimum `monthly_cost_usd` over the current result and the
comparison results. -/
def mkOf (c : RegionResult) (os : List RegionResult) : ℚ :=
  foldMin c.monthly_cost_usd (os.map (·.monthly_cost_usd))

/-- Modelled from the spec: mark `is_lowest_carbon` / `is_lowest_cost` on a
result by comparing its metric with the set-wide minima `mc` / `mk`. -/
def setFlags (mc mk : ℚ) (r : RegionResult) : RegionResult :=
  { r with
    is_lowest_carbon := decide (r.carbon_emissions_kg = mc)
    is_lowest_cost := decide (r.monthly_cost_usd = mk) }

/-- Modelled from the spec: savings fields relative to the current region's
result; the current region itself has zero savings by definition, and the
percent computations are guarded against a zero denominator. -/
def withSavings (cur r : RegionResult) : RegionResult :=
  if r.is_current_region then
    { r with
      carbon_savings_kg := 0
      cost_savings_usd := 0
      carbon_savings_percent := 0
      cost_savings_percent := 0 }
  else
    { r with
      carbon_savings_kg := cur.carbon_emissions_kg - r.carbon_emissions_kg
      cost_savings_usd := cur.monthly_cost_usd - r.monthly_cost_usd
      carbon_savings_percent :=
        if cur.carbon_emissions_kg = 0 then 0
        else round1 ((cur.carbon_emissions_kg - r.carbon_emissions_kg) /
          cur.carbon_emissions_kg * 100)
      cost_savings_percent :=
        if cur.monthly_cost_usd = 0 then 0
        else round1 ((cur.monthly_cost_usd - r.monthly_cost_usd) /
          cur.monthly_cost_usd * 100) }

/-- Modelled from the spec: the Comparator's assembly step — given the
current region's base result and the other regions' base results, flag the
set-wide minima and derive savings relative to the flagged current result. -/
def assemble (c : RegionResult) (os : List RegionResult) :
    RegionResult × List RegionResult :=
  let curF := setFlags (mcOf c os) (mkOf c os) c
  (withSavings curF curF, (os.map (setFlags (mcOf c os) (mkOf c os))).map (withSavings curF))

/-- Modelled from the spec: base results for every non-current region that
has a price entry; regions lacking a price entry are skipped. -/
def otherBases (p : InstancePowerProfile) (prices : List PriceEntry)
    (req : WorkloadRequest) (regions : List RegionProfile) : List RegionResult :=
  (regions.filter fun r => !(r.region_code == req.current_region)).filterMap
    fun r =>
      (findPrice prices req.cloud_provider req.instance_type r.region_code).map
        fun pe => mkBase p req pe.hourly_price_usd r false

/-- Modelled from the spec: the Region Comparator — resolve the current
region, instance profile and current-region price (each a fatal
`NotFoundError` when missing), then compute the flagged, savings-annotated
result set (current result, other results). -/
def compareRegions (insts : List InstancePowerProfile) (regions : List RegionProfile)
    (prices : List PriceEntry) (req : WorkloadRequest) :
    Except String (RegionResult × List RegionResult) :=
  match regions.find? (fun r => r.region_code == req.current_region) with
  | none => .error ("NotFoundError: current_region " ++ req.current_region)
  | some curRegion =>
    match insts.find? (fun p => p.instance_type == req.instance_type) with
    | none => .error ("NotFoundError: instance_type " ++ req.instance_type)
    | some prof =>
      match findPrice prices req.cloud_provider req.instance_type req.current_region with
      | none => .error "NotFoundError: pricing"
      | some pe =>
        .ok (assemble (mkBase prof req pe.hourly_price_usd curRegion true)
              (otherBases prof prices req regions))

/-- Modelled from the spec: request validation performed before the core —
`instance_count` an integer in [1,1000], `cpu_utilization` in [0,100],
`hours_per_month` in [1,744]. -/
def validateRequest (req : WorkloadRequest) : Except String WorkloadRequest :=
  if req.instance_count < 1 ∨ 1000 < req.instance_count then
    .error "ValidationError: instance_count"
  else if req.cpu_utilization < 0 ∨ 100 < req.cpu_utilization then
    .error "ValidationError: cpu_utilization"
  else if req.hours_per_month < 1 ∨ 744 < req.hours_per_month then
    .error "ValidationError: hours_per_month"
  else
    .ok req

/-- Modelled from the spec: car-km per kg CO2 saved (documented constant). -/
def FACTOR_CAR : ℚ := 4

/-- Modelled from the spec: tree-months of absorption per kg CO2 saved
(documented constant, ~21 kg per tree per year). -/
def FACTOR_TREE : ℚ := 12/21

/-- Modelled from the spec: smartphone charges per kg CO2 saved
(documented constant). -/
def FACTOR_PHONE : ℚ := 86

/-- Modelled from the spec: the Equivalency Translator — yearly savings is
the monthly carbon delta times 12, clamped to be nonnegative; every
equivalency is a linear scaling of it. -/
def mkEquivalencies (cur recommended : RegionResult) : Equivalencies :=
  let yearly := clamp0 ((cur.carbon_emissions_kg - recommended.carbon_emissions_kg) * 12)
  { yearly_savings_kg := yearly
    car_km_saved := yearly * FACTOR_CAR
    tree_months := yearly * FACTOR_TREE
    smartphone_charges := yearly * FACTOR_PHONE }

/-- Pick, by a left fold, the result with the lexicographically smallest
`region_code` (strict improvement only, so the first of equal codes wins). -/
def argminCode (x : RegionResult) (xs : List RegionResult) : RegionResult :=
  xs.foldl (fun a b => if b.region_code < a.region_code then b else a) x

/-- Modelled from the spec: deterministic choice of a best region among the
results flagged by `flag` — the current region when it is among the tied
set, otherwise the tied result with the lexicographically smallest
`region_code` (`dflt` is returned only for an empty tied set). -/
def bestByFlag (flag : RegionResult → Bool) (dflt : RegionResult)
    (rs : List RegionResult) : RegionResult :=
  match (rs.filter flag).find? (fun r => r.is_current_region) with
  | some r => r
  | none =>
    match rs.filter flag with
    | [] => dflt
    | x :: xs => argminCode x xs

/-- Modelled from the spec: `best_carbon_region` — deterministic pick among
the results flagged `is_lowest_carbon`. -/
def bestCarbonRegion (dflt : RegionResult) (rs : List RegionResult) : RegionResult :=
  bestByFlag (fun r => r.is_lowest_carbon) dflt rs

/-- Modelled from the spec: `best_cost_region` — deterministic pick among
the results flagged `is_lowest_cost`. -/
def bestCostRegion (dflt : RegionResult) (rs : List RegionResult) : RegionResult :=
  bestByFlag (fun r => r.is_lowest_cost) dflt rs

/-- Modelled from the spec: default carbon priority weight. -/
def W_CARBON : ℚ := 1

/-- Modelled from the spec: default price priority weight. -/
def W_PRICE : ℚ := 6/10

/-- Modelled from the spec: default latency priority weight. -/
def W_LATENCY : ℚ := 3/10

/-- Modelled from the spec: default compliance priority weight. -/
def W_COMPLIANCE : ℚ := 2/10

/-- Modelled from the spec: the request type carries no `user_location`,
so the Location/Latency/Compliance Scorer degrades gracefully to this
neutral normalized signal, the same for every region. -/
def NEUTRAL_SCORE : ℚ := 1/2

/-- Maximum of two rationals, written out so every use reduces by `if`. -/
def qmax (a b : ℚ) : ℚ := if a ≤ b then b else a

/-- Fold a running maximum over a list of rationals, seeded with the first
observed value. -/
def foldMax (x : ℚ) (xs : List ℚ) : ℚ := xs.foldl qmax x

/-- Modelled from the spec: rescale a savings value to [0,1] relative to
the best and worst observed values in the set (best → 1, worst → 0); a
degenerate set (`hi = lo`) rescales to 0 for every region alike. -/
def rescale (v lo hi : ℚ) : ℚ := if hi = lo then 0 else (v - lo) / (hi - lo)

/-- Modelled from the spec: the composite recommendation score
`w_carbon * normalized_carbon_benefit + w_price * normalized_cost_benefit
+ w_latency * latency_score + w_compliance * compliance_score`, with the
neutral location signals. -/
def scoreOf (sLo sHi kLo kHi : ℚ) (r : RegionResult) : ℚ :=
  W_CARBON * rescale r.carbon_savings_kg sLo sHi +
    W_PRICE * rescale r.cost_savings_usd kLo kHi +
    W_LATENCY * NEUTRAL_SCORE + W_COMPLIANCE * NEUTRAL_SCORE

/-- Modelled from the spec: keep the better-scoring of two results; ties
prefer lower `carbon_emissions_kg`, then lexicographic `region_code`. -/
def pickBetter (score : RegionResult → ℚ) (a b : RegionResult) : RegionResult :=
  if score a < score b then b
  else if score a = score b ∧ (b.carbon_emissions_kg < a.carbon_emissions_kg ∨
      (b.carbon_emissions_kg = a.carbon_emissions_kg ∧
        b.region_code < a.region_code)) then b
  else a

/-- Modelled from the spec: the Recommendation Engine — the region with
the maximum composite score over the whole result set (current region
included), using the default weights and the neutral latency/compliance
signals, with the deterministic tie-break of `pickBetter`. -/
def aiRecommendedRegion (cur : RegionResult) (others : List RegionResult) : RegionResult :=
  let sLo := foldMin cur.carbon_savings_kg (others.map (·.carbon_savings_kg))
  let sHi := foldMax cur.carbon_savings_kg (others.map (·.carbon_savings_kg))
  let kLo := foldMin cur.cost_savings_usd (others.map (·.cost_savings_usd))
  let kHi := foldMax cur.cost_savings_usd (others.map (·.cost_savings_usd))
  others.foldl (pickBetter (scoreOf sLo sHi kLo kHi)) cur

/-- Modelled from the spec: the whole pipeline — validate, compare
regions, pick best regions, run the Recommendation Engine, and translate
the yearly savings against the recommended region (which may legitimately
differ from `best_carbon_region`). -/
def simulate (insts : List InstancePowerProfile) (regions : List RegionProfile)
    (prices : List PriceEntry) (req : WorkloadRequest) :
    Except String SimulationResponse :=
  match validateRequest req with
  | .error e => .error e
  | .ok _ =>
    match compareRegions insts regions prices req with
    | .error e => .error e
    | .ok (cur, others) =>
      let aiRec := aiRecommendedRegion cur others
      .ok { success := true
            request := req
            current_region_result := cur
            comparison_regions := others
            best_carbon_region := bestCarbonRegion cur (cur :: others)
            best_cost_region := bestCostRegion cur (cur :: others)
            ai_insights := none
            ai_recommended_region := some aiRec
            equivalencies := mkEquivalencies cur aiRec }

/-- From `ResultsDashboard` (src/unnamed/part_002, line 94:
`const recommended_region = ai_recommended_region || best_carbon_region`):
the region presented to the user as recommended. -/
def recommendedRegionShown (ai_recommended_region : Option RegionResult)
    (best_carbon_region : RegionResult) : RegionResult :=
  match ai_recommended_region with
  | some r => r
  | none => best_carbon_region

/-- `true` exactly on `Except.error`. -/
def isErr {ε α : Type} : Except ε α → Bool
  | .error _ => true
  | .ok _ => false

/-- The spec's concrete scenario request: 10 × t3.micro at 50% CPU, 730
hours per month, currently in eu-central-1. -/
def sampleRequest : WorkloadRequest :=
  { cloud_provider := "aws"
    instance_type := "t3.micro"
    instance_count := 10
    cpu_utilization := 50
    hours_per_month := 730
    current_region := "eu-central-1" }

/-- Fixture instance catalog for concrete witnesses. -/
def TEST_INSTANCES : List InstancePowerProfile := [⟨"i1", 1, 1, 10, 20⟩]

/-- Fixture region catalog for concrete witnesses. -/
def TEST_REGIONS : List RegionProfile :=
  [⟨"r-a", "A", "X", 100⟩, ⟨"r-b", "B", "Y", 50⟩]

/-- Fixture price table for concrete witnesses. -/
def TEST_PRICES : List PriceEntry :=
  [⟨"aws", "i1", "r-a", 1⟩, ⟨"aws", "i1", "r-b", 2⟩]

/-- Fixture request: one `i1` instance at 50% CPU for 100 hours in `r-a`. -/
def testRequest : WorkloadRequest := ⟨"aws", "i1", 1, 50, 100, "r-a"⟩

/-- The current-region result the pipeline produces for `testRequest`. -/
def curTestResult : RegionResult :=
  ⟨"r-a", "A", "X", 100, 3/2, 3/20, 100, true, false, true, 0, 0, 0, 0⟩

/-- The single comparison result the pipeline produces for `testRequest`. -/
def altTestResult : RegionResult :=
  ⟨"r-b", "B", "Y", 50, 3/2, 2/25, 200, false, true, false, 7/100, -100, 467/10, -100⟩

/-- The full response the pipeline produces for `testRequest`. -/
def testResponse : SimulationResponse :=
  ⟨true, testRequest, curTestResult, [altTestResult], altTestResult, curTestResult, none,
    some altTestResult, ⟨21/25, 84/25, 12/25, 1806/25⟩⟩

/-- Fixture request naming a region absent from `TEST_REGIONS`. -/
def badRegionRequest : WorkloadRequest := ⟨"aws", "i1", 1, 50, 100, "r-z"⟩

/-- Fixture request with an out-of-range `instance_count`. -/
def badCountRequest : WorkloadRequest := ⟨"aws", "i1", 0, 50, 100, "r-a"⟩

/-- Fixture current-region result with zero emissions and zero cost. -/
def zeroCurResult : RegionResult :=
  ⟨"r-z", "Z", "Z", 0, 0, 0, 0, true, false, false, 0, 0, 0, 0⟩

/-- Fixture region catalog where the current region `n-a` is the cleanest
while the cheap, dirtier `n-b` wins the weighted recommendation. -/
def NEG_REGIONS : List RegionProfile :=
  [⟨"n-a", "A", "X", 100⟩, ⟨"n-b", "B", "Y", 800⟩, ⟨"n-c", "C", "Z", 10000⟩]

/-- Fixture price table making `n-b` much cheaper than the current region. -/
def NEG_PRICES : List PriceEntry :=
  [⟨"aws", "i1", "n-a", 3⟩, ⟨"aws", "i1", "n-b", 1⟩, ⟨"aws", "i1", "n-c", 5⟩]

/-- Fixture request currently hosted in the cleanest region `n-a`. -/
def negRequest : WorkloadRequest := ⟨"aws", "i1", 1, 50, 100, "n-a"⟩

/-- The current-region result the pipeline produces for `negRequest`. -/
def negCurResult : RegionResult :=
  ⟨"n-a", "A", "X", 100, 3/2, 3/20, 300, true, true, false, 0, 0, 0, 0⟩

/-- The `n-b` comparison result for `negRequest` (cheaper but dirtier than
the current region, and the weighted recommendation winner). -/
def negBResult : RegionResult :=
  ⟨"n-b", "B", "Y", 800, 3/2, 6/5, 100, false, false, true, -21/20, 200, -700, 667/10⟩

/-- The `n-c` comparison result for `negRequest`. -/
def negCResult : RegionResult :=
  ⟨"n-c", "C", "Z", 10000, 3/2, 15, 500, false, false, false, -297/20, -200, -9900, -667/10⟩

/-- The full response the pipeline produces for `negRequest`: the
recommended region `n-b` emits more carbon than the current region, so
the unclamped yearly delta is negative and every equivalency is zero. -/
def negResponse : SimulationResponse :=
  ⟨true, negRequest, negCurResult, [negBResult, negCResult], negCurResult, negBResult,
    none, some negBResult, ⟨0, 0, 0, 0⟩⟩

@[simp] theorem mkBase_region_code (p : InstancePowerProfile) (req : WorkloadRequest)
    (price : ℚ) (region : RegionProfile) (b : Bool) :
    (mkBase p req price region b).region_code = region.region_code := rfl

@[simp] theorem mkBase_is_current (p : InstancePowerProfile) (req : WorkloadRequest)
    (price : ℚ) (region : RegionProfile) (b : Bool) :
    (mkBase p req price region b).is_current_region = b := rfl

@[simp] theorem setFlags_region_code (mc mk : ℚ) (r : RegionResult) :
    (setFlags mc mk r).region_code = r.region_code := rfl

@[simp] theorem setFlags_carbon (mc mk : ℚ) (r : RegionResult) :
    (setFlags mc mk r).carbon_emissions_kg = r.carbon_emissions_kg := rfl

@[simp] theorem setFlags_cost (mc mk : ℚ) (r : RegionResult) :
    (setFlags mc mk r).monthly_cost_usd = r.monthly_cost_usd := rfl

@[simp] theorem setFlags_is_current (mc mk : ℚ) (r : RegionResult) :
    (setFlags mc mk r).is_current_region = r.is_current_region := rfl

@[simp] theorem setFlags_lowest_carbon (mc mk : ℚ) (r : RegionResult) :
    (setFlags mc mk r).is_lowest_carbon = decide (r.carbon_emissions_kg = mc) := rfl

@[simp] theorem setFlags_lowest_cost (mc mk : ℚ) (r : RegionResult) :
    (setFlags mc mk r).is_lowest_cost = decide (r.monthly_cost_usd = mk) := rfl

@[simp] theorem withSavings_region_code (cur r : RegionResult) :
    (withSavings cur r).region_code = r.region_code := by
  unfold withSavings; split <;> rfl

@[simp] theorem withSavings_carbon (cur r : RegionResult) :
    (withSavings cur r).carbon_emissions_kg = r.carbon_emissions_kg := by
  unfold withSavings; split <;> rfl

@[simp] theorem withSavings_cost (cur r : RegionResult) :
    (withSavings cur r).monthly_cost_usd = r.monthly_cost_usd := by
  unfold withSavings; split <;> rfl

@[simp] theorem withSavings_is_current (cur r : RegionResult) :
    (withSavings cur r).is_current_region = r.is_current_region := by
  unfold withSavings; split <;> rfl

@[simp] theorem withSavings_lowest_carbon (cur r : RegionResult) :
    (withSavings cur r).is_lowest_carbon = r.is_lowest_carbon := by
  unfold withSavings; split <;> rfl

@[simp] theorem withSavings_lowest_cost (cur r : RegionResult) :
    (withSavings cur r).is_lowest_cost = r.is_lowest_cost := by
  unfold withSavings; split <;> rfl

theorem withSavings_current_savings (cur r : RegionResult)
    (h : r.is_current_region = true) :
    (withSavings cur r).carbon_savings_kg = 0 ∧
      (withSavings cur r).cost_savings_usd = 0 := by
  unfold withSavings
  rw [if_pos h]
  exact ⟨rfl, rfl⟩

theorem qmin_le_left (a b : ℚ) : qmin a b ≤ a := by
  unfold qmin
  split
  · exact le_refl a
  · next h => exact (lt_of_not_le h).le

theorem qmin_le_right (a b : ℚ) : qmin a b ≤ b := by
  unfold qmin
  split
  · next h => exact h
  · exact le_refl b

theorem qmin_eq_or (a b : ℚ) : qmin a b = a ∨ qmin a b = b := by
  unfold qmin
  split
  · exact Or.inl rfl
  · exact Or.inr rfl

theorem foldMin_cons (x a : ℚ) (l : List ℚ) :
    foldMin x (a :: l) = foldMin (qmin x a) l := rfl

theorem foldMin_le_head (x : ℚ) (xs : List ℚ) : foldMin x xs ≤ x := by
  induction xs generalizing x with
  | nil => exact le_refl x
  | cons a l ih =>
    rw [foldMin_cons]
    exact le_trans (ih (qmin x a)) (qmin_le_left x a)

theorem foldMin_le_mem (x : ℚ) (xs : List ℚ) : ∀ y ∈ xs, foldMin x xs ≤ y := by
  induction xs generalizing x with
  | nil => intro y hy; cases hy
  | cons a l ih =>
    intro y hy
    rw [foldMin_cons]
    rcases List.mem_cons.mp hy with h | h
    · subst h
      exact le_trans (foldMin_le_head (qmin x y) l) (qmin_le_right x y)
    · exact ih (qmin x a) y h

theorem foldMin_mem (x : ℚ) (xs : List ℚ) : foldMin x xs = x ∨ foldMin x xs ∈ xs := by
  induction xs generalizing x with
  | nil => exact Or.inl rfl
  | cons a l ih =>
    rw [foldMin_cons]
    rcases ih (qmin x a) with h | h
    · rcases qmin_eq_or x a with h2 | h2
      · exact Or.inl (h.trans h2)
      · exact Or.inr (by rw [h, h2]; exact List.mem_cons_self a l)
    · exact Or.inr (List.mem_cons_of_mem a h)

theorem argminCode_cons (x a : RegionResult) (l : List RegionResult) :
    argminCode x (a :: l) =
      argminCode (if a.region_code < x.region_code then a else x) l := rfl

theorem argminCode_mem : ∀ (xs : List RegionResult) (x : RegionResult),
    argminCode x xs ∈ x :: xs := by
  intro xs
  induction xs with
  | nil => intro x; exact List.mem_cons_self x []
  | cons a l ih =>
    intro x
    rw [argminCode_cons]
    by_cases hc : a.region_code < x.region_code
    · rw [if_pos hc]
      exact List.mem_cons_of_mem x (ih a)
    · rw [if_neg hc]
      rcases List.mem_cons.mp (ih x) with h | h
      · rw [h]; exact List.mem_cons_self x (a :: l)
      · exact List.mem_cons_of_mem x (List.mem_cons_of_mem a h)

theorem argminCode_le : ∀ (xs : List RegionResult) (x : RegionResult),
    ∀ r ∈ x :: xs, (argminCode x xs).region_code ≤ r.region_code := by
  intro xs
  induction xs with
  | nil =>
    intro x r hr
    rw [List.mem_singleton] at hr
    subst hr
    exact le_refl _
  | cons a l ih =>
    intro x r hr
    rw [argminCode_cons]
    have hy_le_x : (if a.region_code < x.region_code then a else x).region_code ≤
        x.region_code := by
      split
      · next hc => exact hc.le
      · exact le_refl _
    have hy_le_a : (if a.region_code < x.region_code then a else x).region_code ≤
        a.region_code := by
      split
      · exact le_refl _
      · next hc => exact not_lt.mp hc
    have hhead := ih (if a.region_code < x.region_code then a else x)
      (if a.region_code < x.region_code then a else x) (List.mem_cons_self _ _)
    rcases List.mem_cons.mp hr with rfl | hr2
    · exact le_trans hhead hy_le_x
    rcases List.mem_cons.mp hr2 with rfl | hm
    · exact le_trans hhead hy_le_a
    · exact ih (if a.region_code < x.region_code then a else x) r
        (List.mem_cons_of_mem _ hm)

theorem assemble_resultSet (c : RegionResult) (os : List RegionResult) :
    (assemble c os).1 :: (assemble c os).2 =
      (c :: os).map (fun b =>
        withSavings (setFlags (mcOf c os) (mkOf c os) c)
          (setFlags (mcOf c os) (mkOf c os) b)) := by
  simp [assemble, List.map_map]

theorem mcOf_le (c : RegionResult) (os : List RegionResult) :
    ∀ b ∈ c :: os, mcOf c os ≤ b.carbon_emissions_kg := by
  intro b hb
  rcases List.mem_cons.mp hb with rfl | hb
  · exact foldMin_le_head _ _
  · exact foldMin_le_mem _ _ _ (List.mem_map_of_mem _ hb)

theorem mcOf_attained (c : RegionResult) (os : List RegionResult) :
    ∃ b ∈ c :: os, b.carbon_emissions_kg = mcOf c os := by
  rcases foldMin_mem c.carbon_emissions_kg (os.map (·.carbon_emissions_kg)) with h | h
  · exact ⟨c, List.mem_cons_self c os, h.symm⟩
  · obtain ⟨b, hb, hbe⟩ := List.mem_map.mp h
    exact ⟨b, List.mem_cons_of_mem c hb, hbe⟩

theorem mkOf_le (c : RegionResult) (os : List RegionResult) :
    ∀ b ∈ c :: os, mkOf c os ≤ b.monthly_cost_usd := by
  intro b hb
  rcases List.mem_cons.mp hb with rfl | hb
  · exact foldMin_le_head _ _
  · exact foldMin_le_mem _ _ _ (List.mem_map_of_mem _ hb)

theorem mkOf_attained (c : RegionResult) (os : List RegionResult) :
    ∃ b ∈ c :: os, b.monthly_cost_usd = mkOf c os := by
  rcases foldMin_mem c.monthly_cost_usd (os.map (·.monthly_cost_usd)) with h | h
  · exact ⟨c, List.mem_cons_self c os, h.symm⟩
  · obtain ⟨b, hb, hbe⟩ := List.mem_map.mp h
    exact ⟨b, List.mem_cons_of_mem c hb, hbe⟩

theorem assemble_lowest_iff (c : RegionResult) (os : List RegionResult) :
    ∀ r ∈ (assemble c os).1 :: (assemble c os).2,
      (r.is_lowest_carbon = true ↔
        ∀ s ∈ (assemble c os).1 :: (assemble c os).2,
          r.carbon_emissions_kg ≤ s.carbon_emissions_kg) ∧
      (r.is_lowest_cost = true ↔
        ∀ s ∈ (assemble c os).1 :: (assemble c os).2,
          r.monthly_cost_usd ≤ s.monthly_cost_usd) := by
  rw [assemble_resultSet]
  intro r hr
  obtain ⟨b, hb, rfl⟩ := List.mem_map.mp hr
  constructor
  · constructor
    · intro hflag s hs
      obtain ⟨b', hb', rfl⟩ := List.mem_map.mp hs
      simp only [withSavings_carbon, setFlags_carbon]
      simp only [withSavings_lowest_carbon, setFlags_lowest_carbon] at hflag
      rw [of_decide_eq_true hflag]
      exact mcOf_le c os b' hb'
    · intro hall
      simp only [withSavings_lowest_carbon, setFlags_lowest_carbon]
      apply decide_eq_true
      obtain ⟨b0, hb0, hb0e⟩ := mcOf_attained c os
      have h1 := hall _ (List.mem_map_of_mem _ hb0)
      simp only [withSavings_carbon, setFlags_carbon] at h1
      rw [hb0e] at h1
      exact le_antisymm h1 (mcOf_le c os b hb)
  · constructor
    · intro hflag s hs
      obtain ⟨b', hb', rfl⟩ := List.mem_map.mp hs
      simp only [withSavings_cost, setFlags_cost]
      simp only [withSavings_lowest_cost, setFlags_lowest_cost] at hflag
      rw [of_decide_eq_true hflag]
      exact mkOf_le c os b' hb'
    · intro hall
      simp only [withSavings_lowest_cost, setFlags_lowest_cost]
      apply decide_eq_true
      obtain ⟨b0, hb0, hb0e⟩ := mkOf_attained c os
      have h1 := hall _ (List.mem_map_of_mem _ hb0)
      simp only [withSavings_cost, setFlags_cost] at h1
      rw [hb0e] at h1
      exact le_antisymm h1 (mkOf_le c os b hb)

theorem assemble_count_current (c : RegionResult) (os : List RegionResult)
    (hc : c.is_current_region = true)
    (ho : ∀ b ∈ os, b.is_current_region = false) :
    ((assemble c os).1 :: (assemble c os).2).countP
      (fun r => r.is_current_region) = 1 := by
  rw [assemble_resultSet, List.map_cons, List.countP_cons]
  have hzero : (os.map fun b =>
      withSavings (setFlags (mcOf c os) (mkOf c os) c)
        (setFlags (mcOf c os) (mkOf c os) b)).countP
      (fun r => r.is_current_region) = 0 := by
    rw [List.countP_eq_zero]
    intro a ha
    obtain ⟨b, hb, rfl⟩ := List.mem_map.mp ha
    simp [ho b hb]
  rw [hzero]
  simp [hc]

theorem otherBases_not_current (p : InstancePowerProfile) (prices : List PriceEntry)
    (req : WorkloadRequest) (regs : List RegionProfile) :
    ∀ b ∈ otherBases p prices req regs, b.is_current_region = false := by
  intro b hb
  unfold otherBases at hb
  obtain ⟨a, _, hfa⟩ := List.mem_filterMap.mp hb
  obtain ⟨pe, _, hpe⟩ := Option.map_eq_some'.mp hfa
  rw [← hpe]
  rfl

theorem compareRegions_ok_elim {insts : List InstancePowerProfile}
    {regs : List RegionProfile} {prices : List PriceEntry} {req : WorkloadRequest}
    {cur : RegionResult} {others : List RegionResult}
    (h : compareRegions insts regs prices req = .ok (cur, others)) :
    ∃ (curRegion : RegionProfile) (prof : InstancePowerProfile) (pe : PriceEntry),
      regs.find? (fun r => r.region_code == req.current_region) = some curRegion ∧
      (cur, others) = assemble (mkBase prof req pe.hourly_price_usd curRegion true)
        (otherBases prof prices req regs) := by
  unfold compareRegions at h
  rcases hf : regs.find? (fun r => r.region_code == req.current_region) with _ | curRegion
  · rw [hf] at h
    exact Except.noConfusion h
  rw [hf] at h
  rcases hi : insts.find? (fun p => p.instance_type == req.instance_type) with _ | prof
  · rw [hi] at h
    exact Except.noConfusion h
  rw [hi] at h
  rcases hp : findPrice prices req.cloud_provider req.instance_type req.current_region
      with _ | pe
  · rw [hp] at h
    exact Except.noConfusion h
  rw [hp] at h
  injection h with h
  exact ⟨curRegion, prof, pe, hf, h.symm⟩

theorem simulate_ok_elim {insts : List InstancePowerProfile}
    {regs : List RegionProfile} {prices : List PriceEntry} {req : WorkloadRequest}
    {resp : SimulationResponse}
    (h : simulate insts regs prices req = .ok resp) :
    ∃ cur others,
      compareRegions insts regs prices req = .ok (cur, others) ∧
      resp.current_region_result = cur ∧
      resp.comparison_regions = others ∧
      resp.best_carbon_region = bestCarbonRegion cur (cur :: others) ∧
      resp.best_cost_region = bestCostRegion cur (cur :: others) ∧
      resp.ai_recommended_region = some (aiRecommendedRegion cur others) ∧
      resp.equivalencies = mkEquivalencies cur (aiRecommendedRegion cur others) := by
  unfold simulate at h
  rcases hv : validateRequest req with e | r
  · rw [hv] at h
    exact Except.noConfusion h
  rw [hv] at h
  rcases hc : compareRegions insts regs prices req with e | p
  · rw [hc] at h
    exact Except.noConfusion h
  obtain ⟨cur, others⟩ := p
  rw [hc] at h
  injection h with h
  subst h
  exact ⟨cur, others, rfl, rfl, rfl, rfl, rfl, rfl, rfl⟩

theorem validateRequest_ok (req r : WorkloadRequest)
    (h : validateRequest req = .ok r) :
    r = req ∧ 1 ≤ req.instance_count ∧ req.instance_count ≤ 1000 ∧
      0 ≤ req.cpu_utilization ∧ req.cpu_utilization ≤ 100 ∧
      1 ≤ req.hours_per_month ∧ req.hours_per_month ≤ 744 := by
  unfold validateRequest at h
  by_cases h1 : req.instance_count < 1 ∨ 1000 < req.instance_count
  · rw [if_pos h1] at h
    exact Except.noConfusion h
  rw [if_neg h1] at h
  by_cases h2 : req.cpu_utilization < 0 ∨ 100 < req.cpu_utilization
  · rw [if_pos h2] at h
    exact Except.noConfusion h
  rw [if_neg h2] at h
  by_cases h3 : req.hours_per_month < 1 ∨ 744 < req.hours_per_month
  · rw [if_pos h3] at h
    exact Except.noConfusion h
  rw [if_neg h3] at h
  push_neg at h1 h2 h3
  injection h with h
  exact ⟨h.symm, h1.1, h1.2, h2.1, h2.2, h3.1, h3.2⟩

theorem bestByFlag_current (flag : RegionResult → Bool) (cur : RegionResult)
    (rs : List RegionResult) (hcur : cur.is_current_region = true)
    (hflag : flag cur = true) :
    bestByFlag flag cur (cur :: rs) = cur := by
  unfold bestByFlag
  rw [List.filter_cons_of_pos hflag]
  have hfind := List.find?_cons_of_pos (p := fun r : RegionResult => r.is_current_region)
    (a := cur) (List.filter flag rs) hcur
  rw [hfind]

theorem bestByFlag_not_current (flag : RegionResult → Bool) (cur : RegionResult)
    (rs : List RegionResult) (hflag : flag cur = false)
    (ho : ∀ r ∈ rs, r.is_current_region = false) :
    ∀ x xs, (cur :: rs).filter flag = x :: xs →
      bestByFlag flag cur (cur :: rs) ∈ x :: xs ∧
      ∀ r ∈ x :: xs, (bestByFlag flag cur (cur :: rs)).region_code ≤ r.region_code := by
  intro x xs hfil
  have hsub : ∀ r ∈ x :: xs, r.is_current_region = false := by
    intro r hr
    rw [← hfil] at hr
    have hm := List.mem_filter.mp hr
    rcases List.mem_cons.mp hm.1 with rfl | hm2
    · rw [hflag] at hm
      exact absurd hm.2 (by simp)
    · exact ho r hm2
  have hnone : (x :: xs).find? (fun r => r.is_current_region) = none := by
    rw [List.find?_eq_none]
    intro a ha
    simp [hsub a ha]
  unfold bestByFlag
  rw [hfil, hnone]
  exact ⟨argminCode_mem xs x, argminCode_le xs x⟩

theorem clamp0_nonneg (x : ℚ) : 0 ≤ clamp0 x := by
  unfold clamp0
  split
  · exact le_refl 0
  · next hx => exact not_lt.mp hx

theorem clamp0_of_neg (x : ℚ) (h : x < 0) : clamp0 x = 0 := by
  unfold clamp0
  rw [if_pos h]

theorem mkEquivalencies_spec (cur rec : RegionResult) :
    0 ≤ (mkEquivalencies cur rec).yearly_savings_kg ∧
    (mkEquivalencies cur rec).yearly_savings_kg =
      clamp0 ((cur.carbon_emissions_kg - rec.carbon_emissions_kg) * 12) ∧
    ((cur.carbon_emissions_kg - rec.carbon_emissions_kg) * 12 < 0 →
      (mkEquivalencies cur rec).yearly_savings_kg = 0 ∧
      (mkEquivalencies cur rec).car_km_saved = 0 ∧
      (mkEquivalencies cur rec).tree_months = 0 ∧
      (mkEquivalencies cur rec).smartphone_charges = 0) := by
  refine ⟨clamp0_nonneg _, rfl, fun hneg => ?_⟩
  have hy : clamp0 ((cur.carbon_emissions_kg - rec.carbon_emissions_kg) * 12) = 0 :=
    clamp0_of_neg _ hneg
  refine ⟨hy, ?_, ?_, ?_⟩
  · show clamp0 ((cur.carbon_emissions_kg - rec.carbon_emissions_kg) * 12) * FACTOR_CAR = 0
    rw [hy, zero_mul]
  · show clamp0 ((cur.carbon_emissions_kg - rec.carbon_emissions_kg) * 12) * FACTOR_TREE = 0
    rw [hy, zero_mul]
  · show clamp0 ((cur.carbon_emissions_kg - rec.carbon_emissions_kg) * 12) * FACTOR_PHONE = 0
    rw [hy, zero_mul]

theorem simulate_test_eval :
    simulate TEST_INSTANCES TEST_REGIONS TEST_PRICES testRequest = .ok testResponse := by
  simp [simulate, validateRequest, compareRegions, testRequest, TEST_INSTANCES, TEST_REGIONS,
    TEST_PRICES, findPrice, otherBases, assemble, mkBase, setFlags, withSavings, foldMin, qmin,
    computeWatts, totalKwh, round2, round1, bestCarbonRegion, bestCostRegion, bestByFlag,
    argminCode, mkEquivalencies, clamp0, mcOf, mkOf, FACTOR_CAR, FACTOR_TREE, FACTOR_PHONE,
    aiRecommendedRegion, scoreOf, rescale, pickBetter, qmax, foldMax, W_CARBON, W_PRICE,
    W_LATENCY, W_COMPLIANCE, NEUTRAL_SCORE,
    testResponse, curTestResult, altTestResult, List.filterMap_cons]
  norm_num

/-- C7: for every instance power profile with `0 ≤ idle_watts ≤ max_watts`
and every `cpu_utilization` in [0,100], the computed power draw equals
`idle_watts + (max_watts - idle_watts) * (cpu_utilization / 100)` and lies
between `idle_watts` and `max_watts`. -/
theorem power_model_bounds (p : InstancePowerProfile) (cpu : ℚ)
    (h0 : 0 ≤ p.idle_watts) (h1 : p.idle_watts ≤ p.max_watts)
    (h2 : 0 ≤ cpu) (h3 : cpu ≤ 100) :
    computeWatts p cpu =
      p.idle_watts + (p.max_watts - p.idle_watts) * (cpu / 100) ∧
    p.idle_watts ≤ computeWatts p cpu ∧ computeWatts p cpu ≤ p.max_watts := by
  refine ⟨rfl, ?_, ?_⟩
  · unfold computeWatts
    nlinarith
  · unfold computeWatts
    nlinarith

theorem power_model_bounds_witness :
    computeWatts ⟨"t3.micro", 2, 1, 35/10, 18⟩ 50 =
      35/10 + (18 - 35/10) * (50 / 100) ∧
    (35:ℚ)/10 ≤ computeWatts ⟨"t3.micro", 2, 1, 35/10, 18⟩ 50 ∧
    computeWatts ⟨"t3.micro", 2, 1, 35/10, 18⟩ 50 ≤ 18 :=
  power_model_bounds ⟨"t3.micro", 2, 1, 35/10, 18⟩ 50
    (by norm_num) (by norm_num) (by norm_num) (by norm_num)

/-- C8: the savings-percent computation is guarded against division by
zero — when the current region's `carbon_emissions_kg` (resp.
`monthly_cost_usd`) is zero, the corresponding percent is the well-defined
value 0 rather than a division by zero. -/
theorem savings_percent_div_guard (cur r : RegionResult) :
    (cur.carbon_emissions_kg = 0 →
      (withSavings cur r).carbon_savings_percent = 0) ∧
    (cur.monthly_cost_usd = 0 →
      (withSavings cur r).cost_savings_percent = 0) := by
  constructor
  · intro hc
    unfold withSavings
    split
    · rfl
    · simp [hc]
  · intro hk
    unfold withSavings
    split
    · rfl
    · simp [hk]

theorem savings_percent_div_guard_witness :
    (withSavings zeroCurResult altTestResult).carbon_savings_percent = 0 ∧
    (withSavings zeroCurResult altTestResult).cost_savings_percent = 0 :=
  ⟨(savings_percent_div_guard zeroCurResult altTestResult).1 rfl,
   (savings_percent_div_guard zeroCurResult altTestResult).2 rfl⟩

/-- C9: every request accepted by validation has `instance_count` an
integer in [1,1000], `cpu_utilization` in [0,100] and `hours_per_month`
in [1,744]; a request violating these bounds never reaches the
computation — the pipeline rejects it with an error. -/
theorem request_validation_bounds (req : WorkloadRequest) :
    (∀ r, validateRequest req = .ok r →
      r = req ∧ 1 ≤ req.instance_count ∧ req.instance_count ≤ 1000 ∧
      0 ≤ req.cpu_utilization ∧ req.cpu_utilization ≤ 100 ∧
      1 ≤ req.hours_per_month ∧ req.hours_per_month ≤ 744) ∧
    (¬(1 ≤ req.instance_count ∧ req.instance_count ≤ 1000 ∧
        0 ≤ req.cpu_utilization ∧ req.cpu_utilization ≤ 100 ∧
        1 ≤ req.hours_per_month ∧ req.hours_per_month ≤ 744) →
      ∀ (insts : List InstancePowerProfile) (regs : List RegionProfile)
        (prices : List PriceEntry),
        isErr (simulate insts regs prices req) = true) := by
  constructor
  · exact fun r h => validateRequest_ok req r h
  · intro hbad insts regs prices
    rcases hv : validateRequest req with e | r
    · unfold simulate
      rw [hv]
      rfl
    · exact absurd (validateRequest_ok req r hv).2 hbad

theorem request_validation_bounds_witness :
    ((1:ℤ) ≤ sampleRequest.instance_count ∧ sampleRequest.instance_count ≤ 1000 ∧
      (0:ℚ) ≤ sampleRequest.cpu_utilization ∧ sampleRequest.cpu_utilization ≤ 100 ∧
      (1:ℚ) ≤ sampleRequest.hours_per_month ∧ sampleRequest.hours_per_month ≤ 744) ∧
    isErr (simulate TEST_INSTANCES TEST_REGIONS TEST_PRICES badCountRequest) = true :=
  ⟨((request_validation_bounds sampleRequest).1 sampleRequest
      (by norm_num [validateRequest, sampleRequest])).2,
   (request_validation_bounds badCountRequest).2
      (by norm_num [badCountRequest]) TEST_INSTANCES TEST_REGIONS TEST_PRICES⟩

/-- C10: when a simulation response carries no `ai_recommended_region`, the
dashboard presents exactly `best_carbon_region` as the recommended region,
and when one is present it is shown as-is — a recommended region is always
shown. -/
theorem recommended_region_fallback (best r : RegionResult) :
    recommendedRegionShown none best = best ∧
    recommendedRegionShown (some r) best = r :=
  ⟨rfl, rfl⟩

/-- C2: in every successful simulation exactly one result in the produced
set carries `is_current_region = true` — the one whose `region_code` is the
request's `current_region` — and a request whose `current_region` does not
resolve in the region catalog fails with an error. -/
theorem current_region_flag_unique (insts : List InstancePowerProfile)
    (regs : List RegionProfile) (prices : List PriceEntry) (req : WorkloadRequest) :
    (∀ resp, simulate insts regs prices req = .ok resp →
      (resp.current_region_result :: resp.comparison_regions).countP
        (fun r => r.is_current_region) = 1 ∧
      resp.current_region_result.is_current_region = true ∧
      resp.current_region_result.region_code = req.current_region) ∧
    (regs.find? (fun r => r.region_code == req.current_region) = none →
      isErr (simulate insts regs prices req) = true) := by
  constructor
  · intro resp h
    obtain ⟨cur, others, hc, h1, h2, _⟩ := simulate_ok_elim h
    obtain ⟨curRegion, prof, pe, hf, hassem⟩ := compareRegions_ok_elim hc
    have e1 : cur = (assemble (mkBase prof req pe.hourly_price_usd curRegion true)
        (otherBases prof prices req regs)).1 := congrArg Prod.fst hassem
    have e2 : others = (assemble (mkBase prof req pe.hourly_price_usd curRegion true)
        (otherBases prof prices req regs)).2 := congrArg Prod.snd hassem
    refine ⟨?_, ?_, ?_⟩
    · rw [h1, h2, e1, e2]
      exact assemble_count_current _ _ rfl (otherBases_not_current prof prices req regs)
    · rw [h1, e1]
      simp [assemble]
    · rw [h1, e1]
      have hcode : curRegion.region_code = req.current_region := by
        have hp := List.find?_some hf
        exact eq_of_beq hp
      simp [assemble, hcode]
  · intro hf
    have hcr : compareRegions insts regs prices req =
        .error ("NotFoundError: current_region " ++ req.current_region) := by
      unfold compareRegions
      rw [hf]
    rcases hv : validateRequest req with e | r
    · unfold simulate
      rw [hv]
      rfl
    · unfold simulate
      rw [hv, hcr]
      rfl

theorem current_region_flag_unique_witness :
    (testResponse.current_region_result :: testResponse.comparison_regions).countP
      (fun r => r.is_current_region) = 1 ∧
    isErr (simulate TEST_INSTANCES TEST_REGIONS TEST_PRICES badRegionRequest) = true :=
  ⟨((current_region_flag_unique TEST_INSTANCES TEST_REGIONS TEST_PRICES testRequest).1
      testResponse simulate_test_eval).1,
   (current_region_flag_unique TEST_INSTANCES TEST_REGIONS TEST_PRICES badRegionRequest).2
      (by simp [TEST_REGIONS, badRegionRequest])⟩

/-- C3: in every produced result set, a result is flagged
`is_lowest_carbon` exactly when its `carbon_emissions_kg` is minimal over
the whole set, and likewise `is_lowest_cost` for `monthly_cost_usd`; in
particular all tied minima are flagged, not just the first. -/
theorem lowest_flags_iff_min (insts : List InstancePowerProfile)
    (regs : List RegionProfile) (prices : List PriceEntry) (req : WorkloadRequest)
    (resp : SimulationResponse) (h : simulate insts regs prices req = .ok resp) :
    ∀ r ∈ resp.current_region_result :: resp.comparison_regions,
      (r.is_lowest_carbon = true ↔
        ∀ s ∈ resp.current_region_result :: resp.comparison_regions,
          r.carbon_emissions_kg ≤ s.carbon_emissions_kg) ∧
      (r.is_lowest_cost = true ↔
        ∀ s ∈ resp.current_region_result :: resp.comparison_regions,
          r.monthly_cost_usd ≤ s.monthly_cost_usd) := by
  obtain ⟨cur, others, hc, h1, h2, _⟩ := simulate_ok_elim h
  obtain ⟨curRegion, prof, pe, hf, hassem⟩ := compareRegions_ok_elim hc
  have e1 : cur = (assemble (mkBase prof req pe.hourly_price_usd curRegion true)
      (otherBases prof prices req regs)).1 := congrArg Prod.fst hassem
  have e2 : others = (assemble (mkBase prof req pe.hourly_price_usd curRegion true)
      (otherBases prof prices req regs)).2 := congrArg Prod.snd hassem
  rw [h1, h2, e1, e2]
  exact assemble_lowest_iff _ _

theorem lowest_flags_iff_min_witness :
    testResponse.best_carbon_region.carbon_emissions_kg ≤
      testResponse.current_region_result.carbon_emissions_kg := by
  have h := lowest_flags_iff_min TEST_INSTANCES TEST_REGIONS TEST_PRICES testRequest
    testResponse simulate_test_eval
  have hmem : testResponse.best_carbon_region ∈
      testResponse.current_region_result :: testResponse.comparison_regions :=
    List.mem_cons_of_mem _ (List.mem_cons_self _ _)
  exact ((h _ hmem).1).mp rfl _ (List.mem_cons_self _ _)

/-- C4: in every produced result set the current region's own result has
`carbon_savings_kg` and `cost_savings_usd` exactly 0. -/
theorem current_region_zero_savings (insts : List InstancePowerProfile)
    (regs : List RegionProfile) (prices : List PriceEntry) (req : WorkloadRequest)
    (resp : SimulationResponse) (h : simulate insts regs prices req = .ok resp) :
    resp.current_region_result.carbon_savings_kg = 0 ∧
    resp.current_region_result.cost_savings_usd = 0 := by
  obtain ⟨cur, others, hc, h1, _⟩ := simulate_ok_elim h
  obtain ⟨curRegion, prof, pe, hf, hassem⟩ := compareRegions_ok_elim hc
  have e1 : cur = (assemble (mkBase prof req pe.hourly_price_usd curRegion true)
      (otherBases prof prices req regs)).1 := congrArg Prod.fst hassem
  rw [h1, e1]
  exact withSavings_current_savings _ _ (by simp)

theorem current_region_zero_savings_witness :
    testResponse.current_region_result.carbon_savings_kg = 0 ∧
    testResponse.current_region_result.cost_savings_usd = 0 :=
  current_region_zero_savings TEST_INSTANCES TEST_REGIONS TEST_PRICES testRequest
    testResponse simulate_test_eval

/-- C5: `best_carbon_region` and `best_cost_region` are chosen
deterministically — when the current region is among the flagged (tied)
minima it is chosen; otherwise the chosen region is a flagged minimum with
the lexicographically smallest `region_code`. -/
theorem best_region_tiebreak (cur : RegionResult) (rs : List RegionResult)
    (hcur : cur.is_current_region = true)
    (ho : ∀ r ∈ rs, r.is_current_region = false) :
    ((cur.is_lowest_carbon = true → bestCarbonRegion cur (cur :: rs) = cur) ∧
     (cur.is_lowest_carbon = false → ∀ x xs,
        (cur :: rs).filter (fun r => r.is_lowest_carbon) = x :: xs →
        bestCarbonRegion cur (cur :: rs) ∈ x :: xs ∧
        ∀ r ∈ x :: xs,
          (bestCarbonRegion cur (cur :: rs)).region_code ≤ r.region_code)) ∧
    ((cur.is_lowest_cost = true → bestCostRegion cur (cur :: rs) = cur) ∧
     (cur.is_lowest_cost = false → ∀ x xs,
        (cur :: rs).filter (fun r => r.is_lowest_cost) = x :: xs →
        bestCostRegion cur (cur :: rs) ∈ x :: xs ∧
        ∀ r ∈ x :: xs,
          (bestCostRegion cur (cur :: rs)).region_code ≤ r.region_code)) :=
  ⟨⟨fun hflag => bestByFlag_current _ cur rs hcur hflag,
    fun hflag x xs hfil => bestByFlag_not_current _ cur rs hflag ho x xs hfil⟩,
   ⟨fun hflag => bestByFlag_current _ cur rs hcur hflag,
    fun hflag x xs hfil => bestByFlag_not_current _ cur rs hflag ho x xs hfil⟩⟩

theorem best_region_tiebreak_witness :
    bestCostRegion curTestResult [curTestResult, altTestResult] = curTestResult ∧
    bestCarbonRegion curTestResult [curTestResult, altTestResult] ∈ [altTestResult] := by
  have ho : ∀ r ∈ [altTestResult], r.is_current_region = false := by
    intro r hr
    rw [List.mem_singleton] at hr
    subst hr
    rfl
  have h := best_region_tiebreak curTestResult [altTestResult] rfl ho
  refine ⟨h.2.1 rfl, ?_⟩
  have hfil : ([curTestResult, altTestResult]).filter (fun r => r.is_lowest_carbon) =
      [altTestResult] := rfl
  exact (h.1.2 rfl altTestResult [] hfil).1

theorem simulate_neg_eval :
    simulate TEST_INSTANCES NEG_REGIONS NEG_PRICES negRequest = .ok negResponse := by
  simp [simulate, validateRequest, compareRegions, negRequest, TEST_INSTANCES, NEG_REGIONS,
    NEG_PRICES, findPrice, otherBases, assemble, mkBase, setFlags, withSavings, foldMin, qmin,
    computeWatts, totalKwh, round2, round1, bestCarbonRegion, bestCostRegion, bestByFlag,
    argminCode, mkEquivalencies, clamp0, mcOf, mkOf, FACTOR_CAR, FACTOR_TREE, FACTOR_PHONE,
    aiRecommendedRegion, scoreOf, rescale, pickBetter, qmax, foldMax, W_CARBON, W_PRICE,
    W_LATENCY, W_COMPLIANCE, NEUTRAL_SCORE, negResponse, negCurResult, negBResult, negCResult,
    List.filterMap_cons]
  norm_num

/-- C6: in every successful simulation `equivalencies.yearly_savings_kg`
equals the monthly carbon delta to the recommended region (the §4.4
weighted pick carried as `ai_recommended_region`) times 12, clamped to be
nonnegative — so it is never negative, and when the unclamped value would
be negative all equivalency fields are zero. -/
theorem equivalencies_nonneg (insts : List InstancePowerProfile)
    (regs : List RegionProfile) (prices : List PriceEntry) (req : WorkloadRequest)
    (resp : SimulationResponse) (h : simulate insts regs prices req = .ok resp) :
    0 ≤ resp.equivalencies.yearly_savings_kg ∧
    ∀ recr, resp.ai_recommended_region = some recr →
      resp.equivalencies.yearly_savings_kg =
        clamp0 ((resp.current_region_result.carbon_emissions_kg -
          recr.carbon_emissions_kg) * 12) ∧
      ((resp.current_region_result.carbon_emissions_kg -
          recr.carbon_emissions_kg) * 12 < 0 →
        resp.equivalencies.yearly_savings_kg = 0 ∧
        resp.equivalencies.car_km_saved = 0 ∧
        resp.equivalencies.tree_months = 0 ∧
        resp.equivalencies.smartphone_charges = 0) := by
  obtain ⟨cur, others, hc, h1, _, _, _, h5, h6⟩ := simulate_ok_elim h
  constructor
  · rw [h6]
    exact (mkEquivalencies_spec cur (aiRecommendedRegion cur others)).1
  · intro recr hrec
    rw [h5] at hrec
    injection hrec with hrec
    subst hrec
    rw [h1, h6]
    exact ⟨(mkEquivalencies_spec cur (aiRecommendedRegion cur others)).2.1,
      (mkEquivalencies_spec cur (aiRecommendedRegion cur others)).2.2⟩

theorem equivalencies_nonneg_witness :
    0 ≤ negResponse.equivalencies.yearly_savings_kg ∧
    negResponse.equivalencies.yearly_savings_kg = 0 ∧
    negResponse.equivalencies.car_km_saved = 0 ∧
    negResponse.equivalencies.tree_months = 0 ∧
    negResponse.equivalencies.smartphone_charges = 0 := by
  have h := equivalencies_nonneg TEST_INSTANCES NEG_REGIONS NEG_PRICES negRequest
    negResponse simulate_neg_eval
  have h2 := h.2 negBResult rfl
  have hneg : (negResponse.current_region_result.carbon_emissions_kg -
      negBResult.carbon_emissions_kg) * 12 < 0 := by
    norm_num [negResponse, negCurResult, negBResult]
  exact ⟨h.1, (h2.2 hneg).1, (h2.2 hneg).2.1, (h2.2 hneg).2.2.1, (h2.2 hneg).2.2.2⟩

/-- C1: the spec's concrete scenario — 10 t3.micro instances at 50% CPU,
730 h/month in eu-central-1 (385 gCO2/kWh) — yields exactly 30.21 kg in
`current_region_result.carbon_emissions_kg`. -/
theorem concrete_scenario_carbon :
    (simulate DEFAULT_INSTANCES DEFAULT_REGIONS SAMPLE_PRICES sampleRequest).map
      (fun resp => resp.current_region_result.carbon_emissions_kg) =
      .ok (3021/100) := by
  simp [simulate, validateRequest, compareRegions, sampleRequest, DEFAULT_INSTANCES,
    DEFAULT_REGIONS, SAMPLE_PRICES, findPrice, otherBases, assemble, mkBase, setFlags,
    withSavings, foldMin, qmin, computeWatts, totalKwh, round2, mcOf, mkOf,
    List.filterMap_cons, Except.map]
  norm_num

end CarbonShift
